import Mathlib

/-!
Verification of the Hotstar episode-change-detection engine of
`tamilmvbot` (files `hotstar_handler.py` and `angel.py`), as a
shallow embedding in Lean 4.

Modelling conventions:
* A scraped document is the list of its anchor elements (`href`
  attribute plus visible text); the network fetch / markup parse that
  may throw in `scrape_episodes` is modelled by giving the function an
  `Option (List Anchor)` input, `none` standing for the exception path
  (network or parse fault).
* Python strings are Lean `String`s; `str.strip`, `str.split`,
  `str.isdigit`, `str.title`, `in` (substring and list membership) are
  re-implemented below with Python's semantics (ASCII subset, which is
  all the scraper works with).
* The subscription store (a JSON-backed Python dict keyed by show URL)
  is an association list `List (String × Subscription)`; Python dicts
  preserve insertion order, which the association list mirrors.
* The per-URL extraction result consumed by `check_updates` is given by
  an oracle `fetch : String → Option (List Episode)` standing for what
  `self.scrape_episodes(url)` returns during that cycle.
-/

namespace TamilmvBot

/-! ### Python string primitives -/

/-- Substring test on character lists: Python's `needle in hay`. -/
def containsSub (needle : List Char) : List Char → Bool
  | [] => needle.isEmpty
  | c :: t => needle.isPrefixOf (c :: t) || containsSub needle t

/-- Python `needle in hay` for strings (substring containment). -/
def pyIn (needle hay : String) : Bool :=
  containsSub needle.toList hay.toList

/-- Helper for `pySplit`: split a character list at a separator,
accumulating the current chunk in reverse. -/
def splitCharAux (sep : Char) : List Char → List Char → List (List Char)
  | [], acc => [acc.reverse]
  | c :: t, acc =>
    if c == sep then acc.reverse :: splitCharAux sep t []
    else splitCharAux sep t (c :: acc)

/-- Python `s.split(sep)` for a one-character separator: no collapsing
of adjacent separators, `"".split(sep) == [""]`. -/
def pySplit (sep : Char) (s : String) : List String :=
  (splitCharAux sep s.toList []).map String.mk

/-- Python `s.startswith(p)`. -/
def pyStartsWith (p s : String) : Bool :=
  p.toList.isPrefixOf s.toList

/-- Python `s.replace(oldc, newc)` for one-character pattern and
replacement: a character-wise map. -/
def pyReplaceChar (oldc newc : Char) (s : String) : String :=
  String.mk (s.toList.map fun c => if c == oldc then newc else c)

/-- Strip a given character from both ends of a character list. -/
def stripCharList (c : Char) (l : List Char) : List Char :=
  (((l.dropWhile (· == c)).reverse).dropWhile (· == c)).reverse

/-- Python `s.strip('/')` (and, with other characters, `s.strip(c)`). -/
def pyStrip (c : Char) (s : String) : String :=
  String.mk (stripCharList c s.toList)

/-- Python `s.strip()` on whitespace, used for `get_text(strip=True)`. -/
def pyStripWS (s : String) : String :=
  String.mk ((((s.toList.dropWhile Char.isWhitespace).reverse).dropWhile
    Char.isWhitespace).reverse)

/-- Python `s.isdigit()`: nonempty and every character a digit. -/
def pyIsDigit (s : String) : Bool :=
  !s.toList.isEmpty && s.toList.all Char.isDigit

/-- Helper for Python `str.title()`: the boolean records whether the
previous character was alphabetic (a cased character). -/
def pyTitleAux : List Char → Bool → List Char
  | [], _ => []
  | c :: t, prevAlpha =>
    (if c.isAlpha then (if prevAlpha then c.toLower else c.toUpper) else c)
      :: pyTitleAux t c.isAlpha

/-- Python `s.title()`: first letter of every alphabetic run uppercased,
the rest lowercased. -/
def pyTitle (s : String) : String :=
  String.mk (pyTitleAux s.toList false)

/-- Python `parts[-2]` guarded by the caller (default `d` when absent). -/
def secondLastD (l : List String) (d : String) : String :=
  (l.reverse.drop 1).headD d

/-- Python `parts[-3]` guarded by the caller (default `d` when absent). -/
def thirdLastD (l : List String) (d : String) : String :=
  (l.reverse.drop 2).headD d

/-! ### Data model -/

/-- An anchor element of the scraped document: its `href` attribute and
its (already flattened) visible text. -/
structure Anchor where
  href : String
  text : String
deriving DecidableEq

/-- An extracted episode candidate: `{'id': …, 'link': …, 'title': …}`. -/
structure Episode where
  id : String
  link : String
  title : String
deriving DecidableEq

/-- One subscription record of `self.subscriptions[url]`.  The source's
`initialized` flag is the field `inited` (false only between a failed
seed scrape and the first successful one). -/
structure Subscription where
  subscribers : List String
  known_episodes : List String
  last_check : Nat
  title : String
  inited : Bool
deriving DecidableEq

/-- A notification event queued by `check_updates` for the dispatcher. -/
structure NotificationEvent where
  chat_id : String
  text : String
deriving DecidableEq

/-- The subscription store `self.subscriptions`, URL-keyed. -/
abbrev Store := List (String × Subscription)

/-! ### Episode Extractor (`HotstarMonitor.scrape_episodes`) -/

/-- Line 116: `'watch' in href or (href.split('/')[-1].isdigit() and
len(href.split('/')[-1]) > 5)`. -/
def qualifies (href : String) : Bool :=
  pyIn "watch" href ||
    (pyIsDigit ((pySplit '/' href).getLastD "") &&
      decide (((pySplit '/' href).getLastD "").length > 5))

/-- Line 118: `href if href.startswith('http') else
f"https://www.hotstar.com<href>"`. -/
def fullLink (href : String) : String :=
  if pyStartsWith "http" href then href else "https://www.hotstar.com" ++ href

/-- Lines 121-124: `parts = full_link.strip('/').split('/')`,
`ep_id = parts[-1]`, and if that is `'watch'` (and there is a previous
segment) `ep_id = parts[-2]`. -/
def extractId (full : String) : String :=
  let parts := pySplit '/' (pyStrip '/' full)
  let ep0 := parts.getLastD ""
  if ep0 == "watch" && decide (parts.length > 1) then secondLastD parts ""
  else ep0

/-- Lines 130-145: title from the anchor text, else from the URL slug
`parts[-3]` (skipping a literal `shows` segment), else `"Episode id"`. -/
def episodeTitle (a : Anchor) (parts : List String) (epId : String) :
    String :=
  let t0 := pyStripWS a.text
  let t1 :=
    if t0.toList.isEmpty then
      if decide (parts.length ≥ 3) then
        let slug := thirdLastD parts ""
        if slug == "shows" then "" else pyTitle (pyReplaceChar '-' ' ' slug)
      else ""
    else t0
  if t1.toList.isEmpty then "Episode " ++ epId else t1

/-- The loop body of `scrape_episodes` for one anchor (lines 113-151):
`none` when the link does not qualify or its id is rejected by the
`isdigit`/length filter. -/
def processLink (a : Anchor) : Option Episode :=
  if qualifies a.href then
    let full := fullLink a.href
    let parts := pySplit '/' (pyStrip '/' full)
    let epId := extractId full
    if !pyIsDigit epId || decide (epId.length < 8) then none
    else some { id := epId, link := full, title := episodeTitle a parts epId }
  else none

/-- Key list of `{e['id']: e for e in episodes}`: ids in first-occurrence
order, kept unique. -/
def insertKey (ks : List String) (k : String) : List String :=
  if ks.contains k then ks else ks ++ [k]

/-- All distinct ids of an episode list, in first-occurrence order. -/
def keysOf (eps : List Episode) : List String :=
  eps.foldl (fun ks e => insertKey ks e.id) []

/-- Line 154: `{e['id']: e for e in episodes}.values()` — keys in order
of first insertion, each mapped to the last episode carrying that id. -/
def dedupById (eps : List Episode) : List Episode :=
  (keysOf eps).filterMap fun k => (eps.filter (fun e => e.id == k)).getLast?

/-- `HotstarMonitor.scrape_episodes` (lines 90-159): `none` models the
`except` path (network or parse fault), a document models a successful
fetch and parse. -/
def scrape_episodes : Option (List Anchor) → Option (List Episode)
  | none => none
  | some anchors => some (dedupById (anchors.filterMap processLink))

/-! ### `HotstarMonitor.extract_title` (lines 78-88) -/

/-- `extract_title`: the path segment after a literal `shows` segment,
hyphens replaced by spaces and title-cased; otherwise `"Unknown Show"`. -/
def extract_title (url : String) : String :=
  let parts := pySplit '/' (pyStrip '/' url)
  if parts.contains "shows" then
    let idx := parts.indexOf "shows"
    if decide (parts.length > idx + 1) then
      pyTitle (pyReplaceChar '-' ' ' (parts.getD (idx + 1) ""))
    else "Unknown Show"
  else "Unknown Show"

/-! ### Subscription Store (`HotstarMonitor.add_show`, lines 35-76) -/

/-- Lookup `url in self.subscriptions` / `self.subscriptions[url]` on the
association-list store. -/
def storeGet (subs : Store) (url : String) : Option Subscription :=
  (List.find? (fun p => p.1 == url) subs).map (·.2)

/-- Replace the record stored under `url` (Python dict item assignment on
an existing key keeps its position). -/
def storeSet (subs : Store) (url : String) (s : Subscription) : Store :=
  List.map (fun p => if p.1 == url then (url, s) else p) subs

/-- `HotstarMonitor.add_show` (lines 35-76).  `scr` is what the seed call
`self.scrape_episodes(url)` returns (`none` = failed scrape), `now` the
value of `time.time()`.  Returns the new store plus the `(bool, message)`
pair the source returns. -/
def add_show (scr : Option (List Episode)) (now : Nat) (subs : Store)
    (chat_id url : String) : Store × Bool × String :=
  if !pyIn "hotstar.com" url then
    (subs, false, "Invalid URL. Please provide a valid Hotstar show URL.")
  else
    match storeGet subs url with
    | some data =>
      if !data.subscribers.contains chat_id then
        (storeSet subs url
          { data with subscribers := data.subscribers ++ [chat_id] },
          true, "Added to existing monitor list.")
      else (subs, false, "You are already monitoring this show.")
    | none =>
      let known : List String :=
        match scr with
        | none => []
        | some eps => eps.map (·.id)
      let statusMsg : String :=
        match scr with
        | none => "Warning: Could not fetch current episodes. Will try again later."
        | some eps => "Found " ++ toString eps.length ++ " existing episodes."
      let rec' : Subscription :=
        { subscribers := [chat_id], known_episodes := known,
          last_check := now, title := extract_title url,
          inited := scr.isSome }
      (subs ++ [(url, rec')], true, "Started monitoring. " ++ statusMsg)

/-! ### Change Detector / Poll Cycle (`HotstarMonitor.check_updates`,
lines 161-198) -/

/-- Line 191's f-string: the text of one notification event. -/
def notifText (showTitle : String) (ep : Episode) : String :=
  "🎬 <b>New Episode Detected!</b>\n\n<b>Show:</b> " ++ showTitle ++
    "\n<b>Episode:</b> " ++ ep.title ++ "\n\n🔗 " ++ ep.link

/-- Line 173's guard `if current_episodes:` — Python truthiness: the loop
body past the guard runs only for a nonempty successful extraction. -/
def proceedsToDiff (res : Option (List Episode)) : Bool :=
  match res with
  | none => false
  | some cur => !cur.isEmpty

/-- The body of `check_updates` for one subscription (lines 168-198):
given the extraction result `res` for its URL, the updated record and the
notification events queued for it. -/
def checkSub (res : Option (List Episode)) (sub : Subscription) :
    Subscription × List NotificationEvent :=
  match res with
  | none => (sub, [])
  | some cur =>
    if cur.isEmpty then (sub, [])
    else
      let newEps := cur.filter (fun e => !sub.known_episodes.contains e.id)
      if newEps.isEmpty then (sub, [])
      else
        let sub' :=
          { sub with known_episodes :=
              sub.known_episodes ++ newEps.map (·.id) }
        if sub.inited then
          (sub',
            sub.subscribers.flatMap fun s =>
              newEps.map fun ep => ⟨s, notifText sub.title ep⟩)
        else ({ sub' with inited := true }, [])

/-- The per-cycle extraction results: what `self.scrape_episodes(url)`
returns for each URL during one `check_updates` run. -/
abbrev Fetch := String → Option (List Episode)

/-- `HotstarMonitor.check_updates` over the whole store: the updated
store and the batch of notification events handed to the dispatcher. -/
def check_updates (fetch : Fetch) : Store → Store × List NotificationEvent
  | [] => ([], [])
  | (url, sub) :: rest =>
    let r := checkSub (fetch url) sub
    let t := check_updates fetch rest
    ((url, r.1) :: t.1, r.2 ++ t.2)

/-- A whole sequence of poll cycles, each with its own extraction
results; the store carried through. -/
def runTicks (fs : List Fetch) (st : Store) : Store :=
  fs.foldl (fun s f => (check_updates f s).1) st

/-! ### Lock discipline (`self.lock`, §5 of the design)

The traces below transcribe the `with self.lock:` block structure of the
source: `save_data` (lines 27-33) acquires the lock around the
`json.dump` only, while the store mutations in `add_show` (lines 44 and
68) and in the `check_updates` body (lines 180 and 196) run outside any
lock. -/

/-- The mutating store accesses named in §5, plus the persist write. -/
inductive StoreAction where
  | seedSubscription
  | appendSubscriber
  | appendKnownEpisodes
  | setInitFlag
  | persistWrite
deriving DecidableEq

/-- A store access together with whether `self.lock` is held there. -/
structure TracedAction where
  action : StoreAction
  lockHeld : Bool
deriving DecidableEq

/-- `save_data`: the lock is taken around the file write (lines 28-31). -/
def save_dataTrace : List TracedAction := [⟨.persistWrite, true⟩]

/-- `add_show` on an already-tracked URL with a new recipient: the
subscriber append (line 44) runs before `save_data`, without the lock. -/
def add_showTraceExisting : List TracedAction :=
  ⟨.appendSubscriber, false⟩ :: save_dataTrace

/-- `add_show` on an untracked URL: the seed assignment (line 68) runs
before `save_data`, without the lock. -/
def add_showTraceNew : List TracedAction :=
  ⟨.seedSubscription, false⟩ :: save_dataTrace

/-- The `check_updates` body when new episodes are found: the
`known_episodes` appends (line 180), the flag flip (line 196, suppression
path only) and then `save_data`; only the last holds the lock. -/
def check_updatesSubTrace (inited : Bool) : List TracedAction :=
  ⟨.appendKnownEpisodes, false⟩ ::
    ((if inited then [] else [⟨.setInitFlag, false⟩]) ++ save_dataTrace)

/-- An access mutates the in-memory store (the persist write reads it). -/
def mutatesStore : StoreAction → Bool
  | .persistWrite => false
  | _ => true

/-! ### Helper lemmas -/

lemma checkSub_none (s : Subscription) : checkSub none s = (s, []) := rfl

lemma checkSub_some_nil (s : Subscription) :
    checkSub (some []) s = (s, []) := rfl

/-- When every current id is already known, the body is a silent no-op. -/
lemma checkSub_some_of_known (cur : List Episode) (s : Subscription)
    (h : ∀ e ∈ cur, e.id ∈ s.known_episodes) :
    checkSub (some cur) s = (s, []) := by
  cases cur with
  | nil => rfl
  | cons e t =>
    have hfil :
        List.filter (fun x => !s.known_episodes.contains x.id) (e :: t)
          = [] :=
      List.filter_eq_nil_iff.mpr fun a ha => by simpa using h a ha
    show (if (List.filter (fun x => !s.known_episodes.contains x.id)
        (e :: t)).isEmpty then ((s : Subscription),
          ([] : List NotificationEvent)) else _) = (s, [])
    rw [hfil]
    rfl

/-- The updated record's `known_episodes` is the old list with the new
ids appended. -/
lemma checkSub_known (res : Option (List Episode)) (s : Subscription) :
    ∃ t, (checkSub res s).1.known_episodes = s.known_episodes ++ t := by
  cases res with
  | none => exact ⟨[], by simp [checkSub]⟩
  | some cur =>
    by_cases hc : cur.isEmpty
    · exact ⟨[], by simp [checkSub, hc]⟩
    · by_cases hP : ∀ e ∈ cur, e.id ∈ s.known_episodes
      · exact ⟨[], by rw [checkSub_some_of_known cur s hP]; simp⟩
      · refine ⟨(cur.filter
          (fun e => !s.known_episodes.contains e.id)).map (·.id), ?_⟩
        by_cases hi : s.inited <;> simp [checkSub, hc, hP, hi]

/-- `checkSub` never touches `subscribers`, `title` or `last_check`. -/
lemma checkSub_frame (res : Option (List Episode)) (s : Subscription) :
    (checkSub res s).1.subscribers = s.subscribers ∧
    (checkSub res s).1.title = s.title ∧
    (checkSub res s).1.last_check = s.last_check := by
  cases res with
  | none => exact ⟨rfl, rfl, rfl⟩
  | some cur =>
    by_cases hc : cur.isEmpty
    · simp [checkSub, hc]
    · by_cases hP : ∀ e ∈ cur, e.id ∈ s.known_episodes
      · rw [checkSub_some_of_known cur s hP]
        exact ⟨rfl, rfl, rfl⟩
      · by_cases hi : s.inited <;> simp [checkSub, hc, hP, hi]

/-- Re-running the per-subscription body on its own output with the same
extraction result is a no-op with no events. -/
lemma checkSub_twice (res : Option (List Episode)) (s : Subscription) :
    checkSub res (checkSub res s).1 = ((checkSub res s).1, []) := by
  cases res with
  | none => rfl
  | some cur =>
    by_cases hc : cur.isEmpty
    · have : cur = [] := by simpa using hc
      subst this
      rfl
    · by_cases hP : ∀ e ∈ cur, e.id ∈ s.known_episodes
      · rw [checkSub_some_of_known cur s hP]
        exact checkSub_some_of_known cur s hP
      · have hknown : (checkSub (some cur) s).1.known_episodes =
            s.known_episodes ++ (cur.filter
              (fun e => !s.known_episodes.contains e.id)).map (·.id) := by
          by_cases hi : s.inited <;> simp [checkSub, hc, hP, hi]
        have hall : ∀ e ∈ cur,
            e.id ∈ (checkSub (some cur) s).1.known_episodes := by
          intro e he
          rw [hknown, List.mem_append]
          by_cases hk : e.id ∈ s.known_episodes
          · exact Or.inl hk
          · refine Or.inr (List.mem_map.mpr ⟨e, ?_, rfl⟩)
            exact List.mem_filter.mpr ⟨he, by simpa using hk⟩
        exact checkSub_some_of_known cur (checkSub (some cur) s).1 hall

/-- The store returned by one poll cycle, as a map over the old store. -/
lemma check_updates_fst (f : Fetch) (st : Store) :
    (check_updates f st).1 =
      st.map (fun p => (p.1, (checkSub (f p.1) p.2).1)) := by
  induction st with
  | nil => rfl
  | cons hd tl ih => simp [check_updates, ih]

/-- A cycle in which every subscription's body is a silent no-op returns
the store unchanged and no events. -/
lemma check_updates_of_fix (f : Fetch) (st : Store)
    (h : ∀ p ∈ st, checkSub (f p.1) p.2 = (p.2, [])) :
    check_updates f st = (st, []) := by
  induction st with
  | nil => rfl
  | cons hd tl ih =>
    have hhd := h hd (List.mem_cons_self hd tl)
    have htl := ih fun p hp => h p (List.mem_cons_of_mem hd hp)
    simp [check_updates, hhd, htl]

/-- The URL / monotone-`known_episodes` relation between two stores. -/
def knownMono (p q : String × Subscription) : Prop :=
  p.1 = q.1 ∧ p.2.known_episodes ⊆ q.2.known_episodes

lemma knownMono_refl (st : Store) : List.Forall₂ knownMono st st := by
  induction st with
  | nil => exact List.Forall₂.nil
  | cons hd tl ih => exact List.Forall₂.cons ⟨rfl, List.Subset.refl _⟩ ih

lemma knownMono_trans {a b c : Store}
    (h1 : List.Forall₂ knownMono a b) (h2 : List.Forall₂ knownMono b c) :
    List.Forall₂ knownMono a c := by
  induction h1 generalizing c with
  | nil => cases h2; exact List.Forall₂.nil
  | cons hr _ ih =>
    cases h2 with
    | cons hr2 hrest2 =>
      exact List.Forall₂.cons
        ⟨hr.1.trans hr2.1, List.Subset.trans hr.2 hr2.2⟩ (ih hrest2)

/-- One poll cycle only ever appends to each `known_episodes`. -/
lemma check_updates_knownMono (f : Fetch) (st : Store) :
    List.Forall₂ knownMono st (check_updates f st).1 := by
  rw [check_updates_fst]
  induction st with
  | nil => exact List.Forall₂.nil
  | cons hd tl ih =>
    refine List.Forall₂.cons ⟨rfl, ?_⟩ ih
    rcases checkSub_known (f hd.1) hd.2 with ⟨t, ht⟩
    rw [ht]
    exact List.subset_append_left _ _

/-- C2: tick-idempotence.  Running `check_updates` twice while every
subscription's extraction result is unchanged between the two runs (the
same `fetch` oracle) emits zero notification events on the second run and
returns the second store equal to the first — in particular every
subscription's `known_episodes` is unchanged by the second run. -/
theorem tick_idempotent (f : Fetch) (st : Store) :
    (check_updates f (check_updates f st).1).2 = [] ∧
    (check_updates f (check_updates f st).1).1 = (check_updates f st).1 := by
  have hfix : ∀ p ∈ (check_updates f st).1,
      checkSub (f p.1) p.2 = (p.2, []) := by
    intro p hp
    rw [check_updates_fst] at hp
    rcases List.mem_map.mp hp with ⟨q, _, rfl⟩
    exact checkSub_twice (f q.1) q.2
  have hfixed := check_updates_of_fix f (check_updates f st).1 hfix
  exact ⟨by rw [hfixed], by rw [hfixed]⟩

/-- C3: monotonicity.  Across any sequence of poll cycles, whatever each
extraction returns (failures included), every subscription keeps its URL
and its `known_episodes` never shrinks: the old list is a subset of the
new one, so no id is ever removed. -/
theorem known_episodes_monotone (fs : List Fetch) (st : Store) :
    List.Forall₂ knownMono st (runTicks fs st) := by
  induction fs generalizing st with
  | nil => exact knownMono_refl st
  | cons f fs ih =>
    exact knownMono_trans (check_updates_knownMono f st)
      (ih (check_updates f st).1)

/-- C8: frame property.  A poll cycle changes at most `known_episodes`
and the `initialized` flag of each subscription: the URL, `subscribers`,
`title` and `last_check` of every entry are untouched, whatever the
extraction returns. -/
theorem tick_frame (f : Fetch) (st : Store) :
    (check_updates f st).1.map
        (fun p => (p.1, p.2.subscribers, p.2.title, p.2.last_check)) =
      st.map
        (fun p => (p.1, p.2.subscribers, p.2.title, p.2.last_check)) := by
  rw [check_updates_fst, List.map_map]
  apply List.map_congr_left
  intro p _
  rcases checkSub_frame (f p.1) p.2 with ⟨h1, h2, h3⟩
  simp [Function.comp, h1, h2, h3]

/-- C1 (counterexample): a subscription created with a failed seed
scrape (`initialized` false, empty `known_episodes`) whose next
extraction succeeds with zero episodes.  The cycle emits no events but
leaves `initialized` false and the record untouched — the guard on line
173 treats the empty successful result like a failure — contradicting
the claim that the first successful tick sets the flag true regardless
of how many episodes the extraction finds. -/
theorem first_success_empty_cex :
    (check_updates (fun _ => some [])
        [("https://www.hotstar.com/in/shows/x/12345678",
          { subscribers := ["1"], known_episodes := [], last_check := 0,
            title := "X", inited := false })]).1 =
      [("https://www.hotstar.com/in/shows/x/12345678",
        { subscribers := ["1"], known_episodes := [], last_check := 0,
          title := "X", inited := false })] ∧
    (check_updates (fun _ => some [])
        [("https://www.hotstar.com/in/shows/x/12345678",
          { subscribers := ["1"], known_episodes := [], last_check := 0,
            title := "X", inited := false })]).2 = [] :=
  ⟨rfl, rfl⟩

/-- C1 (amended): for a subscription created with a failed seed scrape
(`initialized` false, `known_episodes` empty), the first tick whose
extraction succeeds with a **nonempty** episode list emits zero
notification events for it and sets `initialized` true; ticks whose
extraction fails, or succeeds with zero episodes, leave the record
unchanged (so such a tick is indeed the first that changes it).  Stated
on `checkSub`, the `check_updates` body for one subscription. -/
theorem first_nonempty_success_silent (s : Subscription)
    (cur : List Episode) (h0 : s.inited = false)
    (h1 : s.known_episodes = []) (h2 : cur ≠ []) :
    (checkSub (some cur) s).2 = [] ∧
    (checkSub (some cur) s).1.inited = true ∧
    checkSub none s = (s, []) ∧ checkSub (some []) s = (s, []) := by
  rcases List.exists_cons_of_ne_nil h2 with ⟨e, t, rfl⟩
  refine ⟨?_, ?_, rfl, rfl⟩ <;> simp [checkSub, h0, h1]

/-- C1 (amended) witness at a concrete uninitialized subscription and a
one-episode extraction result. -/
theorem first_nonempty_success_silent_witness :
    (checkSub (some [{ id := "87654321", link := "l", title := "T" }])
        { subscribers := ["1"], known_episodes := [], last_check := 0,
          title := "X", inited := false }).2 = [] ∧
    (checkSub (some [{ id := "87654321", link := "l", title := "T" }])
        { subscribers := ["1"], known_episodes := [], last_check := 0,
          title := "X", inited := false }).1.inited = true ∧
    checkSub none
        { subscribers := ["1"], known_episodes := [], last_check := 0,
          title := "X", inited := false } =
      ({ subscribers := ["1"], known_episodes := [], last_check := 0,
          title := "X", inited := false }, []) ∧
    checkSub (some [])
        { subscribers := ["1"], known_episodes := [], last_check := 0,
          title := "X", inited := false } =
      ({ subscribers := ["1"], known_episodes := [], last_check := 0,
          title := "X", inited := false }, []) :=
  first_nonempty_success_silent _ _ rfl rfl (List.cons_ne_nil _ _)

/-- C4 (counterexample): for a successful extraction that finds zero
episodes the poll cycle does **not** proceed to the diff step: the guard
of line 173 (`if current_episodes:`) is false on the empty list, and the
subscription is skipped exactly as on failure. -/
theorem empty_success_skipped_cex :
    proceedsToDiff (some []) = false ∧
    checkSub (some [])
        { subscribers := ["1"], known_episodes := ["87654321"],
          last_check := 0, title := "X", inited := true } =
      ({ subscribers := ["1"], known_episodes := ["87654321"],
          last_check := 0, title := "X", inited := true }, []) ∧
    checkSub none
        { subscribers := ["1"], known_episodes := ["87654321"],
          last_check := 0, title := "X", inited := true } =
      ({ subscribers := ["1"], known_episodes := ["87654321"],
          last_check := 0, title := "X", inited := true }, []) :=
  ⟨rfl, rfl, rfl⟩

/-- C4 (amended): a failed extraction and a successful extraction that
finds zero episodes are handled alike by the poll cycle: both skip the
subscription with no state change and no notification, because the
line-173 guard proceeds to the diff step only for a nonempty successful
result.  The two outcomes remain distinguishable at the extractor's
boundary, where failure is `none` and an empty success is `some []`. -/
theorem failure_and_empty_success_both_skip :
    (∀ s : Subscription,
      checkSub none s = (s, []) ∧ checkSub (some []) s = (s, [])) ∧
    (∀ res : Option (List Episode),
      proceedsToDiff res = true ↔ ∃ cur, res = some cur ∧ cur ≠ []) ∧
    some ([] : List Episode) ≠ none := by
  refine ⟨fun s => ⟨rfl, rfl⟩, fun res => ?_, by simp⟩
  cases res with
  | none => simp [proceedsToDiff]
  | some cur => cases cur <;> simp [proceedsToDiff]

/-- `containsSub` (Python's `in`) decides list-infix containment. -/
lemma containsSub_iff_infix (n : List Char) (h : List Char) :
    containsSub n h = true ↔ n <:+: h := by
  induction h with
  | nil =>
    simp [containsSub, List.infix_nil, List.isEmpty_iff]
  | cons c t ih =>
    simp [containsSub, List.infix_cons_iff, List.isPrefixOf_iff_prefix, ih]

/-- The qualification rule exactly as claim C5 words it: the path
contains the literal path **segment** `"watch"`, or the final path
segment is entirely numeric and longer than 5 characters. -/
def claimSegmentQualifies (href : String) : Bool :=
  (pySplit '/' href).contains "watch" ||
    (pyIsDigit ((pySplit '/' href).getLastD "") &&
      decide (((pySplit '/' href).getLastD "").length > 5))

/-- C5 (counterexample): the href `/shows/watchman-returns/s2` has no
path segment equal to `watch` and its final segment is not numeric, so
under the claim's rule it is not a candidate; the code's line-116 test
`'watch' in href` is a **substring** test and accepts it. -/
theorem watch_substring_cex :
    qualifies "/shows/watchman-returns/s2" = true ∧
    claimSegmentQualifies "/shows/watchman-returns/s2" = false := by
  exact ⟨rfl, rfl⟩

/-- C5 (amended): a hyperlink is taken as an episode candidate iff
`"watch"` occurs as a substring **anywhere** in its href (not
necessarily as a whole path segment), or its final path segment is
entirely numeric and longer than 5 characters.  The substring side is
characterized as list-infix containment of the character sequences. -/
theorem qualifies_iff_substring_or_numeric (href : String) :
    qualifies href = true ↔
      ("watch".toList <:+: href.toList ∨
        (pyIsDigit ((pySplit '/' href).getLastD "") = true ∧
          5 < ((pySplit '/' href).getLastD "").length)) := by
  unfold qualifies pyIn
  rw [Bool.or_eq_true, Bool.and_eq_true, containsSub_iff_infix]
  simp

/-- The candidate-id rule exactly as claim C6 words it, on the segments
of the absolute URL: the last path segment, or the second-to-last when
the last is the literal token `watch`. -/
def claimIdOfParts (parts : List String) : String :=
  if parts.getLastD "" == "watch" then secondLastD parts ""
  else parts.getLastD ""

/-- Claim C6's candidate id for a link's href. -/
def claimCandidateId (href : String) : String :=
  claimIdOfParts (pySplit '/' (pyStrip '/' (fullLink href)))

/-- The id filter of line 127, positively: kept iff purely numeric and
at least 8 characters. -/
def keepId (epId : String) : Bool :=
  pyIsDigit epId && decide (8 ≤ epId.length)

lemma keepId_iff (x : String) :
    keepId x = true ↔ (pyIsDigit x = true ∧ 8 ≤ x.length) := by
  simp [keepId]

/-- The line-180 rejection condition is the negation of `keepId`. -/
lemma reject_eq_not_keep (e : String) :
    (!pyIsDigit e || decide (e.length < 8)) = !keepId e := by
  unfold keepId
  by_cases hpd : pyIsDigit e = true <;> by_cases hl : e.length < 8 <;>
    simp [hpd, hl]
  all_goals omega

/-- `processLink` on a qualifying link, written through `keepId`. -/
lemma processLink_eq (a : Anchor) (h : qualifies a.href = true) :
    processLink a =
      (if keepId (extractId (fullLink a.href)) then
        some { id := extractId (fullLink a.href), link := fullLink a.href,
               title := episodeTitle a
                 (pySplit '/' (pyStrip '/' (fullLink a.href)))
                 (extractId (fullLink a.href)) }
      else none) := by
  unfold processLink
  rw [if_pos h]
  show (if (!pyIsDigit (extractId (fullLink a.href)) ||
      decide ((extractId (fullLink a.href)).length < 8)) = true
    then none else _) = _
  rw [reject_eq_not_keep]
  cases hk : keepId (extractId (fullLink a.href)) <;> simp [hk]

/-- `extractId` agrees with the claim's segment rule, except in the
degenerate one-segment case `["watch"]`, where both ids fail the keep
filter anyway. -/
lemma extractId_vs_claim (full : String) :
    extractId full = claimIdOfParts (pySplit '/' (pyStrip '/' full)) ∨
      (extractId full = "watch" ∧
        claimIdOfParts (pySplit '/' (pyStrip '/' full)) = "") := by
  unfold extractId claimIdOfParts
  rcases hps : pySplit '/' (pyStrip '/' full) with _ | ⟨x, _ | ⟨y, t⟩⟩
  · left
    simp
  · by_cases hx : x = "watch"
    · subst hx
      right
      exact ⟨by simp [secondLastD], by simp [secondLastD]⟩
    · left
      simp [hx]
  · by_cases hx : (x :: y :: t).getLastD "" = "watch"
    · left
      simp [hx]
    · left
      simp [hx]

/-- C6: for every qualifying link, the extracted candidate id is the one
the claim describes — the last path segment of the absolute URL, or the
second-to-last when the last is the literal `watch` — and the candidate
is discarded exactly when that id is not purely numeric or is shorter
than 8 characters. -/
theorem candidate_id_rule (a : Anchor) (h : qualifies a.href = true) :
    ((processLink a).isSome = true ↔
      (pyIsDigit (claimCandidateId a.href) = true ∧
        8 ≤ (claimCandidateId a.href).length)) ∧
    (∀ ep, processLink a = some ep → ep.id = claimCandidateId a.href) := by
  rw [processLink_eq a h]
  unfold claimCandidateId
  rcases extractId_vs_claim (fullLink a.href) with heq | ⟨hw, hcl⟩
  · rw [heq]
    constructor
    · by_cases hk : keepId
          (claimIdOfParts (pySplit '/' (pyStrip '/' (fullLink a.href)))) = true
      · simp only [hk, if_true, Option.isSome_some]
        exact ⟨fun _ => (keepId_iff _).mp hk, fun _ => trivial⟩
      · rw [if_neg hk]
        simp only [Option.isSome_none, Bool.false_eq_true, false_iff]
        intro hc
        exact hk ((keepId_iff _).mpr hc)
    · intro ep hep
      by_cases hk : keepId
          (claimIdOfParts (pySplit '/' (pyStrip '/' (fullLink a.href)))) = true
      · rw [if_pos hk] at hep
        cases hep
        rfl
      · rw [if_neg hk] at hep
        cases hep
  · rw [hw, hcl]
    have hkw : keepId "watch" = false := rfl
    rw [hkw]
    constructor
    · simp only [Bool.false_eq_true, if_false, Option.isSome_none, false_iff]
      intro hc
      have : pyIsDigit "" = false := rfl
      rw [this] at hc
      cases hc.1
    · intro ep hep
      simp at hep

/-- C6 witness: the id rule at the claim's scenario inputs — a link
whose candidate id is the 2-digit `42` (discarded) and one whose id is
the 8-digit `87654321` (retained). -/
theorem candidate_id_rule_witness :
    ((((processLink ⟨"/cat/42/watch", "E"⟩).isSome = true ↔
        (pyIsDigit (claimCandidateId "/cat/42/watch") = true ∧
          8 ≤ (claimCandidateId "/cat/42/watch").length)) ∧
      (∀ ep, processLink ⟨"/cat/42/watch", "E"⟩ = some ep →
        ep.id = claimCandidateId "/cat/42/watch")) ∧
     (((processLink ⟨"/cat/87654321/watch", "E"⟩).isSome = true ↔
        (pyIsDigit (claimCandidateId "/cat/87654321/watch") = true ∧
          8 ≤ (claimCandidateId "/cat/87654321/watch").length)) ∧
      (∀ ep, processLink ⟨"/cat/87654321/watch", "E"⟩ = some ep →
        ep.id = claimCandidateId "/cat/87654321/watch"))) ∧
    processLink ⟨"/cat/42/watch", "E"⟩ = none ∧
    (processLink ⟨"/cat/87654321/watch", "E"⟩).isSome = true :=
  ⟨⟨candidate_id_rule ⟨"/cat/42/watch", "E"⟩ rfl,
    candidate_id_rule ⟨"/cat/87654321/watch", "E"⟩ rfl⟩, rfl, rfl⟩

/-- Appending a fresh entry for an untracked URL makes it found. -/
lemma storeGet_append_of_none (subs : Store) (url : String)
    (s : Subscription) (h : storeGet subs url = none) :
    storeGet (subs ++ [(url, s)]) url = some s := by
  induction subs with
  | nil => simp [storeGet]
  | cons hd tl ih =>
    by_cases hq : (hd.1 == url) = true
    · exfalso
      simp [storeGet, List.find?_cons, hq] at h
    · simp only [storeGet, List.cons_append, List.find?_cons, hq] at h ⊢
      exact ih h

/-- C7: `add_show` on an untracked (and domain-valid) URL seeds a new
subscription from the one extraction it performs: on extraction failure
`known_episodes` is empty and the `initialized` flag is false; on
success `known_episodes` is exactly the ids the extraction found and the
flag is true.  The requester is the sole subscriber. -/
theorem add_show_seed_spec (scr : Option (List Episode)) (now : Nat)
    (subs : Store) (chat_id url : String)
    (hdom : pyIn "hotstar.com" url = true)
    (hnew : storeGet subs url = none) :
    ∃ r, storeGet (add_show scr now subs chat_id url).1 url = some r ∧
      (scr = none → r.known_episodes = [] ∧ r.inited = false) ∧
      (∀ eps, scr = some eps →
        r.known_episodes = eps.map (·.id) ∧ r.inited = true) ∧
      r.subscribers = [chat_id] := by
  have h1 : (add_show scr now subs chat_id url).1 =
      subs ++ [(url,
        { subscribers := [chat_id],
          known_episodes := match scr with
            | none => []
            | some eps => eps.map (·.id),
          last_check := now, title := extract_title url,
          inited := scr.isSome })] := by
    unfold add_show
    rw [hdom, hnew]
    rfl
  rw [h1]
  refine ⟨_, storeGet_append_of_none subs url _ hnew, ?_, ?_, rfl⟩
  · intro h
    subst h
    exact ⟨rfl, rfl⟩
  · intro eps h
    subst h
    exact ⟨rfl, rfl⟩

/-- C7 witness: a failed and a successful seed at a concrete untracked
URL and empty store. -/
theorem add_show_seed_spec_witness :
    (∃ r, storeGet (add_show none 7 [] "1"
        "https://www.hotstar.com/in/shows/abc/12345678").1
        "https://www.hotstar.com/in/shows/abc/12345678" = some r ∧
      ((none : Option (List Episode)) = none →
        r.known_episodes = [] ∧ r.inited = false) ∧
      (∀ eps, (none : Option (List Episode)) = some eps →
        r.known_episodes = eps.map (·.id) ∧ r.inited = true) ∧
      r.subscribers = ["1"]) ∧
    (∃ r, storeGet (add_show
        (some [({ id := "12345678", link := "l", title := "T" } : Episode)]) 7 [] "1"
        "https://www.hotstar.com/in/shows/abc/12345678").1
        "https://www.hotstar.com/in/shows/abc/12345678" = some r ∧
      (some [({ id := "12345678", link := "l", title := "T" } : Episode)] = none →
        r.known_episodes = [] ∧ r.inited = false) ∧
      (∀ eps, some [({ id := "12345678", link := "l", title := "T" } : Episode)]
          = some eps →
        r.known_episodes = eps.map (·.id) ∧ r.inited = true) ∧
      r.subscribers = ["1"]) :=
  ⟨add_show_seed_spec none 7 [] "1"
      "https://www.hotstar.com/in/shows/abc/12345678" rfl rfl,
    add_show_seed_spec
      (some [({ id := "12345678", link := "l", title := "T" } : Episode)]) 7 [] "1"
      "https://www.hotstar.com/in/shows/abc/12345678" rfl rfl⟩

/-- C9: a successfully fetched and parsed document in which no hyperlink
qualifies yields `some []` — the empty set, a successful result — and
never the failure value; the failure value arises only from the
network/parse fault path (`none` input). -/
theorem empty_scrape_not_failure (anchors : List Anchor)
    (h : ∀ a ∈ anchors, qualifies a.href = false) :
    scrape_episodes (some anchors) = some [] ∧
    (∀ doc : List Anchor, scrape_episodes (some doc) ≠ none) ∧
    scrape_episodes none = none := by
  refine ⟨?_, fun doc => by simp [scrape_episodes], rfl⟩
  have hfm : anchors.filterMap processLink = [] := by
    rw [List.filterMap_eq_nil_iff]
    intro a ha
    simp [processLink, h a ha]
  simp [scrape_episodes, hfm, dedupById, keysOf]

/-- C9 witness: a concrete document with no qualifying link. -/
theorem empty_scrape_not_failure_witness :
    scrape_episodes (some [⟨"/about", "About"⟩, ⟨"/cat/12345", "5 digits"⟩])
        = some [] ∧
    (∀ doc : List Anchor, scrape_episodes (some doc) ≠ none) ∧
    scrape_episodes none = none :=
  empty_scrape_not_failure [⟨"/about", "About"⟩, ⟨"/cat/12345", "5 digits"⟩]
    (by decide)

/-- C10: the lock discipline the source actually implements, evaluated
on the traced `with self.lock` structure: in every operation of
`add_show` and of the `check_updates` body, each in-memory store
mutation (seed, subscriber append, known-episode append, flag flip) runs
with the lock **not** held; the only action ever performed under the
lock is `save_data`'s persist write.  This refutes the requirement that
every read-modify-write of the store be serialized by the lock. -/
theorem lock_only_guards_persist :
    (add_showTraceNew.filter
        (fun t => mutatesStore t.action && !t.lockHeld)).map (·.action)
      = [.seedSubscription] ∧
    (add_showTraceExisting.filter
        (fun t => mutatesStore t.action && !t.lockHeld)).map (·.action)
      = [.appendSubscriber] ∧
    ((check_updatesSubTrace true).filter
        (fun t => mutatesStore t.action && !t.lockHeld)).map (·.action)
      = [.appendKnownEpisodes] ∧
    ((check_updatesSubTrace false).filter
        (fun t => mutatesStore t.action && !t.lockHeld)).map (·.action)
      = [.appendKnownEpisodes, .setInitFlag] ∧
    (∀ t ∈ add_showTraceNew ++ add_showTraceExisting ++
        check_updatesSubTrace true ++ check_updatesSubTrace false,
      t.lockHeld = true → t.action = .persistWrite) := by
  refine ⟨rfl, rfl, rfl, rfl, ?_⟩
  decide

end TamilmvBot
